import Mathlib

/-!
Verification model of the session store (frappe/sessions.py).

The Python module is shallowly embedded: strings are lists of characters,
timestamps are integers counting seconds, the volatile cache is a function
from keys to optional values, and the durable `tabSessions` table is a list
of rows.  Each Python function of the module is translated into a Lean
definition that threads the global state explicitly.  Collaborators that
live outside the module (the redis cache wrapper, frappe.utils helpers,
MySQL TIME comparison, frappe.defaults) are modelled from the
specification, and each such definition says so in its doc comment.
-/

/-- The sentinel user / session id "Guest" as a character list. -/
def guestStr : List Char := ['G', 'u', 'e', 's', 't']

/-- The request command "logout" as a character list. -/
def logoutStr : List Char := ['l', 'o', 'g', 'o', 'u', 't']

/-- The per-user cache namespace marker "user:". -/
def keyUser : List Char := ['u', 's', 'e', 'r', ':']

/-- The per-user document-cache namespace marker "user_doc:". -/
def keyUserDoc : List Char := ['u', 's', 'e', 'r', '_', 'd', 'o', 'c', ':']

/-- The cache key marker "session:". -/
def keySession : List Char := ['s', 'e', 's', 's', 'i', 'o', 'n', ':']

/-- The cache key marker "last_db_session_update:". -/
def keyLastDb : List Char :=
  ['l', 'a', 's', 't', '_', 'd', 'b', '_', 's', 'e', 's', 's', 'i', 'o', 'n',
   '_', 'u', 'p', 'd', 'a', 't', 'e', ':']

/-- The colon separator character of duration strings. -/
def colon : Char := ':'

/-- The default session expiry duration "06:00:00". -/
def defaultExpiry : List Char := ['0', '6', ':', '0', '0', ':', '0', '0']

/-- The session status "Active". -/
def activeStr : List Char := ['A', 'c', 't', 'i', 'v', 'e']

/-- Python `s.split(":")` on character lists: splits at every colon and keeps
empty fields, so an empty input yields one empty field. -/
def splitColon : List Char → List (List Char)
  | [] => [[]]
  | c :: cs =>
    if c = colon then [] :: splitColon cs
    else
      match splitColon cs with
      | [] => [[c]]
      | f :: rest => (c :: f) :: rest

/-- Value of a decimal digit string, most significant digit first. -/
def parseDigits (cs : List Char) : Nat :=
  cs.foldl (fun a c => 10 * a + (c.toNat - 48)) 0

/-- Modelled from the spec: `frappe.utils.cint` (the module imports it from
frappe.utils, which is outside the session module) parses an integer and,
per §4.1, "malformed numeric fields fail closed to 0 rather than raising".
It is modelled on optionally-signed decimal digit strings. -/
def cint (cs : List Char) : Int :=
  match cs with
  | [] => 0
  | c :: rest =>
    if c = '-' then
      if rest ≠ [] ∧ rest.all Char.isDigit then -(parseDigits rest : Int) else 0
    else
      if (c :: rest).all Char.isDigit then (parseDigits (c :: rest) : Int) else 0

/-- Session.get_expiry_in_seconds: `3600*parts[0] + 60*parts[1] + parts[2]`
of the colon-split duration, 3600 when the duration is absent or empty, and
`none` models the uncaught IndexError raised when the split has fewer than
three fields. -/
def get_expiry_in_seconds (expiry : Option (List Char)) : Option Int :=
  match expiry with
  | none => some 3600
  | some e =>
    if e = [] then some 3600
    else
      match splitColon e with
      | p0 :: p1 :: p2 :: _ => some (cint p0 * 3600 + cint p1 * 60 + cint p2)
      | _ => none

/-- get_expiry_period: the configured global default `session_expiry` (or
"06:00:00" when the default is absent or empty), with ":00" appended when
the configured string has exactly two colon-separated fields. -/
def get_expiry_period (session_expiry_default : Option (List Char)) : List Char :=
  let exp_sec :=
    match session_expiry_default with
    | some s => if s = [] then defaultExpiry else s
    | none => defaultExpiry
  if (splitColon exp_sec).length = 2 then exp_sec ++ [colon, '0', '0'] else exp_sec

/-- Modelled from the spec: the durable-store freshness comparison
`TIMEDIFF(NOW(), lastupdate) < TIME(expiry)` (evaluated by MySQL, outside
the module).  §4.4 calls it the same elapsed-versus-expiry comparison
evaluated at the store level, so `TIME` of an HH:MM:SS string is its value
in seconds. -/
def sqlTime (e : List Char) : Int :=
  match splitColon e with
  | p0 :: p1 :: p2 :: _ => cint p0 * 3600 + cint p1 * 60 + cint p2
  | _ => 0

/-- Outcome of the per-request geo-IP lookup.  The constructor abstracts
what the optional geoip library does for the request address: the library
may be missing (ImportError), the address may be invalid (ValueError), the
lookup may find no match, or it may return a match record. -/
inductive GeoOutcome where
  | unavailable
  | invalid
  | notFound
  | found (country : Option (List Char))
deriving DecidableEq

/-- A geolite2 match record; its country attribute may itself be null. -/
structure GeoMatch where
  country : Option (List Char)
deriving DecidableEq

/-- get_geo_from_ip: returns the geolite2 match, swallowing ImportError
(library missing) and ValueError (invalid address) into `none`. -/
def get_geo_from_ip (g : GeoOutcome) : Option GeoMatch :=
  match g with
  | GeoOutcome.unavailable => none
  | GeoOutcome.invalid => none
  | GeoOutcome.notFound => none
  | GeoOutcome.found c => some ⟨c⟩

/-- get_geo_ip_country: the match's country when a match was found,
otherwise nothing. -/
def get_geo_ip_country (g : GeoOutcome) : Option (List Char) :=
  match get_geo_from_ip g with
  | some m => m.country
  | none => none

/-- The inner `self.data.data` mapping of a session.  The open Python dict
is modelled as a record of the keys the module itself writes; an absent key
and a key stored as None are both `none`. -/
structure SessionData where
  user : Option (List Char) := none
  session_ip : Option (List Char) := none
  last_updated : Option Int := none
  session_expiry : Option (List Char) := none
  full_name : Option (List Char) := none
  session_country : Option (List Char) := none
  lang : Option (List Char) := none
deriving DecidableEq

/-- The outer `self.data` mapping: `{'data': ..., 'user': ..., 'sid': ...}`.
`user` and `sid` are absent until `start` or `resume` assigns them. -/
structure StoredSession where
  user : Option (List Char) := none
  sid : Option (List Char) := none
  data : SessionData := {}
deriving DecidableEq

/-- A row of the durable `tabSessions` table.  The `sessiondata` column
holds the serialized inner mapping; the `str`/`eval` round trip of the
source is modelled as the identity on the structured value. -/
structure SessionRow where
  sid : List Char
  user : List Char
  sessiondata : SessionData
  lastupdate : Int
  status : List Char
deriving DecidableEq

/-- The `last_login` / `last_ip` columns of a `tabUser` row. -/
structure UserRow where
  last_login : Option Int := none
  last_ip : Option (List Char) := none
deriving DecidableEq

/-- A value stored in the volatile cache: a session record under a
"session:" key, a timestamp under a "last_db_session_update:" key, or an
opaque payload (boot info and the like) written by collaborators. -/
inductive CacheVal where
  | sess (d : StoredSession)
  | time (t : Int)
  | other (blob : List Char)
deriving DecidableEq

/-- Python exceptions that the module lets escape. -/
inductive PyErr where
  | indexError
deriving DecidableEq

/-- The global state the module reads and writes: the volatile cache, the
durable `tabSessions` rows, the `tabUser` rows, the per-user stored
defaults (frappe.defaults, modelled from the spec as a per-user slot that
its clear_cache empties), and the observable response signals. -/
@[ext]
structure FrappeState where
  cache : List Char → Option CacheVal
  dbRows : List SessionRow
  users : List Char → Option UserRow
  defaults : List Char → Option (List Char)
  response_session_expired : Bool
  cookies_cleared : Bool
  meta_cache_cleared : Bool
  module_map_setup : Bool

/-- A Session object: the fields of `Session.__init__` that the modelled
methods read or write. -/
structure SessionObj where
  sid : List Char
  user : List Char
  full_name : Option (List Char) := none
  data : StoredSession := {}
  time_diff : Option Int := none
deriving DecidableEq

/-- The per-request environment: the clock, the request metadata, the
configured expiry default, the geo-IP outcome for the request address, the
language, and the random id `frappe.generate_hash()` would produce. -/
structure Env where
  now : Int
  request_ip : Option (List Char) := none
  session_expiry_default : Option (List Char) := none
  geo : GeoOutcome := GeoOutcome.notFound
  lang : List Char := []
  form_cmd : Option (List Char) := none
  generated_sid : List Char := []

/-- Does the key start with the given character-list pattern?  Modelled
from the spec: the cache layer's `deleteByPrefix` (redis `keys pattern*`)
matches every key that extends the pattern. -/
def hasPref : List Char → List Char → Bool
  | [], _ => true
  | _ :: _, [] => false
  | p :: ps, c :: cs => if p = c then hasPref ps cs else false

/-- Modelled from the spec: the cache wrapper's key construction for
namespaced keys — a per-user key lives under "user:<user>:<key>", a
global key is stored as given (the constant site marker is dropped). -/
def make_key (key : List Char) (user : Option (List Char)) : List Char :=
  match user with
  | some u => keyUser ++ u ++ [colon] ++ key
  | none => key

/-- Cache set_value at an exact key. -/
def cache_set (c : List Char → Option CacheVal) (key : List Char) (v : CacheVal) :
    List Char → Option CacheVal :=
  fun k => if k = key then some v else c k

/-- Cache delete_value at an exact key. -/
def cache_delete (c : List Char → Option CacheVal) (key : List Char) :
    List Char → Option CacheVal :=
  fun k => if k = key then none else c k

/-- Cache delete_keys: bulk delete of every key extending the pattern. -/
def delete_keys (c : List Char → Option CacheVal) (p : List Char) :
    List Char → Option CacheVal :=
  fun k => if hasPref p k then none else c k

/-- delete_session: removes the cache entry (under the user's namespace),
the last-db-write marker (a global key), and the durable row.  The Python
default for `user` (the current session's user, else "Guest") is passed
explicitly by the callers modelled here. -/
def delete_session (st : FrappeState) (sid user : List Char) : FrappeState :=
  { st with
      cache :=
        cache_delete
          (cache_delete st.cache (make_key (keySession ++ sid) (some user)))
          (make_key (keyLastDb ++ sid) none),
      dbRows := st.dbRows.filter (fun r => !decide (r.sid = sid)) }

/-- The cache keys clear_global_cache passes to delete_value: app_hooks,
installed_apps, app_modules, module_app, time_zone. -/
def globalCacheKeys : List (List Char) :=
  [['a', 'p', 'p', '_', 'h', 'o', 'o', 'k', 's'],
   ['i', 'n', 's', 't', 'a', 'l', 'l', 'e', 'd', '_', 'a', 'p', 'p', 's'],
   ['a', 'p', 'p', '_', 'm', 'o', 'd', 'u', 'l', 'e', 's'],
   ['m', 'o', 'd', 'u', 'l', 'e', '_', 'a', 'p', 'p'],
   ['t', 'i', 'm', 'e', '_', 'z', 'o', 'n', 'e']]

/-- clear_global_cache: clears the model metadata cache (a flag here),
deletes the listed global cache keys, and rebuilds the module map. -/
def clear_global_cache (st : FrappeState) : FrappeState :=
  { st with
      meta_cache_cleared := true,
      cache := globalCacheKeys.foldl cache_delete st.cache,
      module_map_setup := true }

/-- clear_cache: with a user, deletes every cache key extending
"user:<u>" or "user_doc:<u>" and clears the user's stored defaults
(frappe.defaults.clear_cache(user), modelled from the spec as emptying that
user's defaults slot); with no user, does the same for the whole user
namespaces, clears the global cache, and clears all defaults. -/
def clear_cache (st : FrappeState) (user : Option (List Char)) : FrappeState :=
  match user with
  | some u =>
    { st with
        cache := delete_keys (delete_keys st.cache (keyUser ++ u)) (keyUserDoc ++ u),
        defaults := fun v => if v = u then none else st.defaults v }
  | none =>
    let st1 := { st with cache := delete_keys (delete_keys st.cache keyUser) keyUserDoc }
    let st2 := clear_global_cache st1
    { st2 with defaults := fun _ => none }

/-- The standard Guest record `frappe._dict({"user": "Guest"})`. -/
def guestRecord : SessionData := { user := some guestStr }

namespace Session

/-- Session.start: assigns the fixed "Guest" id for the guest user and a
fresh random id otherwise, fills the inner mapping (`last_updated`,
`session_expiry` and `full_name` only for non-guest users, the geo-IP
country for everyone), and for non-guest users inserts the durable row,
writes the cache entry (insert_session_record) and stamps the owning
user's last-login time and IP. -/
def start (env : Env) (st : FrappeState) (s : SessionObj) : FrappeState × SessionObj :=
  let sid := if s.user = guestStr then guestStr else env.generated_sid
  let inner0 := { s.data.data with user := some s.user, session_ip := env.request_ip }
  let inner1 :=
    if s.user ≠ guestStr then
      { inner0 with
          last_updated := some env.now,
          session_expiry := some (get_expiry_period env.session_expiry_default),
          full_name := s.full_name }
    else inner0
  let inner := { inner1 with session_country := get_geo_ip_country env.geo }
  let stored : StoredSession := { user := some s.user, sid := some sid, data := inner }
  let s1 := { s with data := stored }
  if s.user ≠ guestStr then
    let row : SessionRow :=
      { sid := sid, user := s.user, sessiondata := inner, lastupdate := env.now,
        status := activeStr }
    let st1 :=
      { st with
          dbRows := row :: st.dbRows,
          cache := cache_set st.cache (make_key (keySession ++ sid) (some s.user))
            (CacheVal.sess stored) }
    let st2 :=
      { st1 with
          users := fun u =>
            if some u = stored.user then
              some { last_login := some env.now, last_ip := env.request_ip }
            else st1.users u }
    (st2, s1)
  else (st, s1)

/-- The cached last-db-write timestamp
`frappe.cache().get_value("last_db_session_update:" + self.sid)`; a value
of another shape at that key (unreachable through the module's own writes)
reads as absent. -/
def lastDbRead (st : FrappeState) (s : SessionObj) : Option Int :=
  match st.cache (make_key (keyLastDb ++ s.sid) none) with
  | some (CacheVal.time t) => some t
  | _ => none

/-- Session.update: a no-op returning Python None for the guest session or
a logout request; otherwise refreshes `last_updated` and `lang` in the
payload, writes the durable row and refreshes the last-db-write marker
only when `force` is set, no marker is cached, or more than 600 seconds
elapsed since the marker, always rewrites the cache entry, and returns
whether the durable row was written.  `frappe.session['user']` aliases
`self.data` (set in `__init__`), so the guard reads the object's own
payload user. -/
def update (env : Env) (st : FrappeState) (s : SessionObj) (force : Bool) :
    FrappeState × SessionObj × Option Bool :=
  if s.data.user = some guestStr ∨ env.form_cmd = some logoutStr then (st, s, none)
  else
    let inner := { s.data.data with last_updated := some env.now, lang := some env.lang }
    let stored := { s.data with data := inner }
    let s1 := { s with data := stored }
    let last_updated := lastDbRead st s
    let time_diff : Option Int :=
      match last_updated with
      | some t => some (env.now - t)
      | none => none
    let updated_in_db : Bool :=
      force ||
        (match time_diff with
         | none => true
         | some td => decide (600 < td))
    let st1 :=
      if updated_in_db then
        { st with
            dbRows := st.dbRows.map (fun r =>
              if some r.sid = stored.sid then
                { r with sessiondata := inner, lastupdate := env.now }
              else r),
            cache := cache_set st.cache (make_key (keyLastDb ++ s.sid) none)
              (CacheVal.time env.now) }
      else st
    let st2 :=
      { st1 with
          cache := cache_set st1.cache (make_key (keySession ++ s.sid) (some s.user))
            (CacheVal.sess stored) }
    (st2, s1, some updated_in_db)

/-- Session.get_session_data_from_cache: reads the cached record under the
user-namespaced "session:" key; on a hit computes the elapsed time since
the payload's `last_updated` (frappe.utils.time_diff_in_seconds, with a
missing timestamp reading as the current instant, modelled from the spec's
second-level clock), parses the payload's `session_expiry`, and when the
elapsed time strictly exceeds the allowed expiry deletes the session and
reports a miss; otherwise returns the inner payload. -/
def get_session_data_from_cache (env : Env) (st : FrappeState) (s : SessionObj) :
    Except PyErr (FrappeState × SessionObj × Option SessionData) :=
  match st.cache (make_key (keySession ++ s.sid) (some s.user)) with
  | some (CacheVal.sess stored) =>
    let td := env.now - (stored.data.last_updated.getD env.now)
    let s1 := { s with time_diff := some td }
    match get_expiry_in_seconds stored.data.session_expiry with
    | none => Except.error PyErr.indexError
    | some expiry =>
      if expiry < td then Except.ok (delete_session st s1.sid s1.user, s1, none)
      else Except.ok (st, s1, some stored.data)
  | _ => Except.ok (st, s, none)

/-- The rows the durable-store query of get_session_data_from_db returns:
rows matching the session id whose stored last update is within the
configured expiry. -/
def liveDbRows (env : Env) (st : FrappeState) (s : SessionObj) : List SessionRow :=
  st.dbRows.filter (fun r =>
    decide (r.sid = s.sid) &&
      decide (env.now - r.lastupdate < sqlTime (get_expiry_period env.session_expiry_default)))

/-- Session.get_session_data_from_db: queries the durable store for a live
row; on a hit deserializes the stored payload and overrides its `user`
with the row's user column, on a miss defensively deletes the session and
reports absence. -/
def get_session_data_from_db (env : Env) (st : FrappeState) (s : SessionObj) :
    FrappeState × SessionObj × Option SessionData :=
  match liveDbRows env st s with
  | [] => (delete_session st s.sid s.user, s, none)
  | r :: _ => (st, s, some { r.sessiondata with user := some r.user })

/-- Session.get_session_data: the Guest id resolves to the standard guest
record immediately; otherwise the cache is consulted first and the durable
store only on a cache miss. -/
def get_session_data (env : Env) (st : FrappeState) (s : SessionObj) :
    Except PyErr (FrappeState × SessionObj × Option SessionData) :=
  if s.sid = guestStr then Except.ok (st, s, some guestRecord)
  else
    match get_session_data_from_cache env st s with
    | Except.error e => Except.error e
    | Except.ok (st1, s1, some d) => Except.ok (st1, s1, some d)
    | Except.ok (st1, s1, none) => Except.ok (get_session_data_from_db env st1 s1)

/-- Session.get_session_record: resolves the session data; when nothing is
found, marks the response as session-expired, clears the cookies, and
retries as the Guest session. -/
def get_session_record (env : Env) (st : FrappeState) (s : SessionObj) :
    Except PyErr (FrappeState × SessionObj × Option SessionData) :=
  match get_session_data env st s with
  | Except.error e => Except.error e
  | Except.ok (st1, s1, some r) => Except.ok (st1, s1, some r)
  | Except.ok (st1, s1, none) =>
    let st2 := { st1 with response_session_expired := true, cookies_cleared := true }
    let s2 := { s1 with sid := guestStr }
    get_session_data env st2 s2

end Session

/-- A state with an empty cache, no rows, no users, no defaults and no
signals raised; concrete instantiations start from it. -/
def emptyState : FrappeState :=
  { cache := fun _ => none, dbRows := [], users := fun _ => none,
    defaults := fun _ => none, response_session_expired := false,
    cookies_cleared := false, meta_cache_cleared := false,
    module_map_setup := false }

/-- The user name "Alice" used by concrete instantiations. -/
def aliceStr : List Char := ['A', 'l', 'i', 'c', 'e']

/-- The session id "S1" used by concrete instantiations. -/
def sidOne : List Char := ['S', '1']

/-- The session id "S2" used by concrete instantiations. -/
def sidTwo : List Char := ['S', '2']

/-- A concrete environment at second 1000. -/
def envA : Env := { now := 1000, generated_sid := sidOne }

/-- A concrete non-guest session object owned by Alice. -/
def sessA : SessionObj :=
  { sid := sidOne, user := aliceStr,
    data := { user := some aliceStr, sid := some sidOne,
              data := { user := some aliceStr } } }

/-- A concrete guest session object. -/
def sessG : SessionObj :=
  { sid := guestStr, user := guestStr,
    data := { user := some guestStr, sid := some guestStr,
              data := { user := some guestStr } } }

/-- A cached record for session S2 whose payload was last updated at
second 0 with the default six-hour expiry. -/
def storedB : StoredSession :=
  { user := some aliceStr, sid := some sidTwo,
    data := { user := some aliceStr, last_updated := some 0,
              session_expiry := some defaultExpiry } }

/-- A state whose cache holds exactly the S2 record of `storedB` under
Alice's namespace. -/
def stB : FrappeState :=
  { emptyState with
      cache := fun k =>
        if k = make_key (keySession ++ sidTwo) (some aliceStr) then
          some (CacheVal.sess storedB)
        else none }

/-- The session object resuming S2 for Alice. -/
def sessB : SessionObj := { sid := sidTwo, user := aliceStr }

/-- An environment seven hours (25201 seconds) after second 0. -/
def envB : Env := { now := 25201 }

/-- The concrete environment `envA` with the geo library unavailable. -/
def envC : Env := { envA with geo := GeoOutcome.unavailable }

/-- The concrete environment `envA` with a benign no-match geo lookup. -/
def envD : Env := { envA with geo := GeoOutcome.notFound }

/-- The cache key of user "ab"'s boot info. -/
def keyBootAb : List Char :=
  make_key ['b', 'o', 'o', 't', 'i', 'n', 'f', 'o'] (some ['a', 'b'])

/-- A state holding one cache entry, the boot info of user "ab", plus a
stored default for "ab". -/
def stC : FrappeState :=
  { emptyState with
      cache := fun k => if k = keyBootAb then some (CacheVal.other []) else none,
      defaults := fun v => if v = ['a', 'b'] then some ['x'] else none }

theorem splitColon_no_colon (cs : List Char) (h : colon ∉ cs) : splitColon cs = [cs] := by
  induction cs with
  | nil => rfl
  | cons c cs ih =>
    have hc : c ≠ colon := by
      intro e
      subst e
      exact h (List.mem_cons_self _ _)
    have h' : colon ∉ cs := fun hm => h (List.mem_cons_of_mem _ hm)
    simp [splitColon, hc, ih h']

theorem splitColon_append (xs ys : List Char) (h : colon ∉ xs) :
    splitColon (xs ++ colon :: ys) = xs :: splitColon ys := by
  induction xs with
  | nil => simp [splitColon]
  | cons c cs ih =>
    have hc : c ≠ colon := by
      intro e
      subst e
      exact h (List.mem_cons_self _ _)
    have h' : colon ∉ cs := fun hm => h (List.mem_cons_of_mem _ hm)
    simp [splitColon, hc, ih h']

theorem digits_no_colon (cs : List Char) (h : cs.all Char.isDigit = true) : colon ∉ cs := by
  intro hm
  have hd := List.all_eq_true.mp h _ hm
  exact absurd hd (by decide)

theorem cint_of_digits (cs : List Char) (h : cs.all Char.isDigit = true) :
    cint cs = (parseDigits cs : Int) := by
  cases cs with
  | nil => simp [cint, parseDigits]
  | cons c rest =>
    have hc : c ≠ '-' := by
      intro e
      subst e
      simp [List.all_cons] at h
    simp [cint, hc, h]

theorem hasPref_append_same (xs ys zs : List Char) :
    hasPref (xs ++ ys) (xs ++ zs) = hasPref ys zs := by
  induction xs with
  | nil => rfl
  | cons c cs ih => simp [hasPref, ih]

theorem hasPref_self_append (xs zs : List Char) : hasPref xs (xs ++ zs) = true := by
  induction xs with
  | nil => rfl
  | cons c cs ih => simp [hasPref, ih]

theorem hasPref_true_iff (p l : List Char) : hasPref p l = true ↔ p <+: l := by
  induction p generalizing l with
  | nil => simp [hasPref]
  | cons a as ih =>
    cases l with
    | nil => simp [hasPref]
    | cons b bs =>
      by_cases hab : a = b
      · subst hab
        simp [hasPref, ih]
      · simp [hasPref, hab]

theorem hasPref_keyUserDoc (w x : List Char) :
    hasPref (keyUserDoc ++ w) (keyUser ++ x) = false := by
  simp [keyUserDoc, keyUser, hasPref]

theorem lastdb_key_ne (a b u : List Char) :
    make_key (keyLastDb ++ a) none ≠ make_key (keySession ++ b) (some u) := by
  intro h
  have h0 := congrArg (fun l => List.headD l colon) h
  simp only [make_key, keyLastDb, keyUser, List.cons_append, List.headD_cons] at h0
  exact absurd h0 (by decide)

theorem delete_session_cache_sess (st : FrappeState) (sid u : List Char) :
    (delete_session st sid u).cache (make_key (keySession ++ sid) (some u)) = none := by
  simp [delete_session, cache_delete]

theorem delete_session_cache_lastdb (st : FrappeState) (sid u : List Char) :
    (delete_session st sid u).cache (make_key (keyLastDb ++ sid) none) = none := by
  simp [delete_session, cache_delete]

theorem delete_session_rows (st : FrappeState) (sid u : List Char) :
    ∀ r ∈ (delete_session st sid u).dbRows, r.sid ≠ sid := by
  intro r hr
  simp [delete_session, List.mem_filter] at hr
  exact hr.2

theorem liveDbRows_delete (env : Env) (st : FrappeState) (s : SessionObj) (u : List Char) :
    Session.liveDbRows env (delete_session st s.sid u) s = [] := by
  apply List.filter_eq_nil_iff.mpr
  intro r hr
  have hne := delete_session_rows st s.sid u r hr
  simp [hne]

theorem expiry_of_three_fields (hs ms ss : List Char)
    (h1 : hs.all Char.isDigit = true) (h2 : ms.all Char.isDigit = true)
    (h3 : ss.all Char.isDigit = true) :
    get_expiry_in_seconds (some (hs ++ (colon :: (ms ++ (colon :: ss))))) =
      some (3600 * (parseDigits hs : Int) + 60 * (parseDigits ms : Int) + (parseDigits ss : Int)) := by
  have nh := digits_no_colon hs h1
  have nm := digits_no_colon ms h2
  have ns := digits_no_colon ss h3
  have hne : hs ++ (colon :: (ms ++ (colon :: ss))) ≠ [] := by simp
  have hsplit : splitColon (hs ++ (colon :: (ms ++ (colon :: ss)))) = hs :: ms :: [ss] := by
    rw [splitColon_append _ _ nh, splitColon_append _ _ nm, splitColon_no_colon _ ns]
  have main : get_expiry_in_seconds (some (hs ++ (colon :: (ms ++ (colon :: ss))))) =
      some (cint hs * 3600 + cint ms * 60 + cint ss) := by
    simp only [get_expiry_in_seconds]
    rw [if_neg hne, hsplit]
  rw [main, cint_of_digits hs h1, cint_of_digits ms h2, cint_of_digits ss h3]
  congr 1
  ring

/-- Claim C2: for every duration string with three colon-separated numeric
fields HH:MM:SS the parsed expiry is 3600*H + 60*M + S seconds, and a
two-field duration HH:MM is normalised by get_expiry_period so that the
missing seconds field counts as zero, parsing to 3600*H + 60*M seconds. -/
theorem c2_parse_expiry (hs ms ss : List Char)
    (h1 : hs.all Char.isDigit = true) (h2 : ms.all Char.isDigit = true)
    (h3 : ss.all Char.isDigit = true) :
    get_expiry_in_seconds (some (hs ++ (colon :: (ms ++ (colon :: ss))))) =
      some (3600 * (parseDigits hs : Int) + 60 * (parseDigits ms : Int) + (parseDigits ss : Int))
    ∧ get_expiry_in_seconds (some (get_expiry_period (some (hs ++ (colon :: ms))))) =
      some (3600 * (parseDigits hs : Int) + 60 * (parseDigits ms : Int)) := by
  have nh := digits_no_colon hs h1
  have nm := digits_no_colon ms h2
  constructor
  · exact expiry_of_three_fields hs ms ss h1 h2 h3
  · have hne2 : hs ++ (colon :: ms) ≠ [] := by simp
    have hsplit2 : splitColon (hs ++ (colon :: ms)) = [hs, ms] := by
      rw [splitColon_append _ _ nh, splitColon_no_colon _ nm]
    have hper : get_expiry_period (some (hs ++ (colon :: ms))) =
        hs ++ (colon :: (ms ++ (colon :: ['0', '0']))) := by
      simp only [get_expiry_period]
      rw [if_neg hne2, hsplit2]
      simp [List.append_assoc]
    rw [hper]
    have h00 : (['0', '0'] : List Char).all Char.isDigit = true := by decide
    have := expiry_of_three_fields hs ms ['0', '0'] h1 h2 h00
    rw [this]
    simp [parseDigits]

theorem c2_witness :
    get_expiry_in_seconds
        (some (['0', '6'] ++ (colon :: (['3', '0'] ++ (colon :: ['1', '5']))))) =
      some (3600 * (parseDigits ['0', '6'] : Int) + 60 * (parseDigits ['3', '0'] : Int)
        + (parseDigits ['1', '5'] : Int))
    ∧ get_expiry_in_seconds (some (get_expiry_period (some (['0', '6'] ++ (colon :: ['3', '0']))))) =
      some (3600 * (parseDigits ['0', '6'] : Int) + 60 * (parseDigits ['3', '0'] : Int)) :=
  c2_parse_expiry ['0', '6'] ['3', '0'] ['1', '5'] (by decide) (by decide) (by decide)

/-- Claim C3: during cache resolution a hit whose payload carries a
last-updated timestamp and a parsable expiry is treated as expired exactly
when the elapsed seconds strictly exceed the expiry — it is then deleted
and reported as a miss — and in particular an elapsed time equal to the
expiry is not expired and the payload is returned. -/
theorem c3_cache_expiry_strict (env : Env) (st : FrappeState) (s : SessionObj)
    (stored : StoredSession) (lu expiry : Int)
    (hhit : st.cache (make_key (keySession ++ s.sid) (some s.user)) = some (CacheVal.sess stored))
    (hlu : stored.data.last_updated = some lu)
    (hexp : get_expiry_in_seconds stored.data.session_expiry = some expiry) :
    (expiry < env.now - lu →
      Session.get_session_data_from_cache env st s =
        Except.ok (delete_session st s.sid s.user,
          { s with time_diff := some (env.now - lu) }, none))
    ∧ (¬ expiry < env.now - lu →
      Session.get_session_data_from_cache env st s =
        Except.ok (st, { s with time_diff := some (env.now - lu) }, some stored.data)) := by
  constructor <;> intro h <;>
    simp [Session.get_session_data_from_cache, hhit, hlu, hexp, h]

theorem c3_witness :
    (21600 : Int) < envB.now - 0
    ∧ Session.get_session_data_from_cache envB stB sessB =
        Except.ok (delete_session stB sessB.sid sessB.user,
          { sessB with time_diff := some (envB.now - 0) }, none) :=
  ⟨by decide,
    (c3_cache_expiry_strict envB stB sessB storedB 0 21600 (by decide) (by decide)
      (by decide)).1 (by decide)⟩

/-- Claim C5: the guest session is never persisted — start() for the guest
user leaves the whole durable and cached state untouched and assigns the
fixed sentinel id "Guest" — and resolving the session id "Guest" returns
the standard guest record immediately for every state, without consulting
the cache or the durable store. -/
theorem c5_guest_not_persisted (env : Env) (st : FrappeState) (s t : SessionObj)
    (hu : s.user = guestStr) (ht : t.sid = guestStr) :
    (Session.start env st s).1 = st
    ∧ (Session.start env st s).2.data.sid = some guestStr
    ∧ Session.get_session_data env st t = Except.ok (st, t, some guestRecord) := by
  refine ⟨?_, ?_, ?_⟩
  · simp [Session.start, hu]
  · simp [Session.start, hu]
  · simp [Session.get_session_data, ht]

theorem c5_witness :
    (Session.start envA emptyState sessG).1 = emptyState
    ∧ (Session.start envA emptyState sessG).2.data.sid = some guestStr
    ∧ Session.get_session_data envA emptyState sessG =
        Except.ok (emptyState, sessG, some guestRecord) :=
  c5_guest_not_persisted envA emptyState sessG sessG rfl rfl

/-- Claim C7: delete(sessionId, userId) removes the namespaced session
cache entry, the last-db-write marker and every durable row of the id; it
is idempotent, and on a state where all three are already absent it is a
no-op rather than an error. -/
theorem c7_delete_idempotent (st : FrappeState) (sid user : List Char) :
    (delete_session st sid user).cache (make_key (keySession ++ sid) (some user)) = none
    ∧ (delete_session st sid user).cache (make_key (keyLastDb ++ sid) none) = none
    ∧ (∀ r ∈ (delete_session st sid user).dbRows, r.sid ≠ sid)
    ∧ delete_session (delete_session st sid user) sid user = delete_session st sid user
    ∧ (st.cache (make_key (keySession ++ sid) (some user)) = none →
       st.cache (make_key (keyLastDb ++ sid) none) = none →
       (∀ r ∈ st.dbRows, r.sid ≠ sid) →
       delete_session st sid user = st) := by
  refine ⟨delete_session_cache_sess st sid user, delete_session_cache_lastdb st sid user,
    delete_session_rows st sid user, ?_, ?_⟩
  · refine FrappeState.ext ?_ ?_ rfl rfl rfl rfl rfl rfl
    · funext k
      simp only [delete_session, cache_delete]
      split_ifs <;> rfl
    · simp [delete_session, List.filter_filter]
  · intro h1 h2 h3
    have hrows : st.dbRows.filter (fun r => !decide (r.sid = sid)) = st.dbRows := by
      apply List.filter_eq_self.mpr
      intro r hr
      simp [h3 r hr]
    have hcache :
        cache_delete (cache_delete st.cache (make_key (keySession ++ sid) (some user)))
          (make_key (keyLastDb ++ sid) none) = st.cache := by
      funext k
      simp only [cache_delete]
      split_ifs with hk1 hk2
      · rw [hk1]
        exact h2.symm
      · rw [hk2]
        exact h1.symm
      · rfl
    exact FrappeState.ext hcache hrows rfl rfl rfl rfl rfl rfl

theorem c7_witness : delete_session emptyState sidOne aliceStr = emptyState :=
  (c7_delete_idempotent emptyState sidOne aliceStr).2.2.2.2 rfl rfl (by simp [emptyState])

/-- Claim C10: when the payload user is the guest or the request is a
logout, update(force) is an immediate no-op: it returns Python None rather
than a boolean and changes neither the state nor the session object, for
either value of force. -/
theorem c10_update_guest_noop (env : Env) (st : FrappeState) (s : SessionObj) (force : Bool)
    (hg : s.data.user = some guestStr ∨ env.form_cmd = some logoutStr) :
    Session.update env st s force = (st, s, none) := by
  unfold Session.update
  rw [if_pos hg]

theorem c10_witness : Session.update envA emptyState sessG true = (emptyState, sessG, none) :=
  c10_update_guest_noop envA emptyState sessG true (Or.inl rfl)

/-- Claim C1: for a non-guest, non-logout request, update(force) returns
whether a durable write occurred; the durable row is written — and the
cached last-db-write timestamp refreshed to the current time — exactly
when force is set, no last-db-write timestamp is cached, or strictly more
than 600 seconds elapsed since the cached timestamp; otherwise the durable
rows and the marker are left unchanged. -/
theorem c1_update_throttle (env : Env) (st : FrappeState) (s : SessionObj) (force : Bool)
    (hg : ¬(s.data.user = some guestStr ∨ env.form_cmd = some logoutStr)) :
    ∃ b : Bool,
      (Session.update env st s force).2.2 = some b
      ∧ (b = true ↔
          (force = true ∨ Session.lastDbRead st s = none
            ∨ ∃ t, Session.lastDbRead st s = some t ∧ 600 < env.now - t))
      ∧ (b = true →
          (Session.update env st s force).1.dbRows =
            st.dbRows.map (fun r =>
              if some r.sid = s.data.sid then
                { r with
                    sessiondata :=
                      { s.data.data with last_updated := some env.now, lang := some env.lang },
                    lastupdate := env.now }
              else r)
          ∧ (Session.update env st s force).1.cache (make_key (keyLastDb ++ s.sid) none)
              = some (CacheVal.time env.now))
      ∧ (b = false →
          (Session.update env st s force).1.dbRows = st.dbRows
          ∧ (Session.update env st s force).1.cache (make_key (keyLastDb ++ s.sid) none)
              = st.cache (make_key (keyLastDb ++ s.sid) none)) := by
  cases hldb : Session.lastDbRead st s with
  | none =>
    refine ⟨true, ?_, ?_, ?_, ?_⟩
    · simp [Session.update, hg, hldb]
    · simp [hldb]
    · intro _
      constructor
      · simp [Session.update, hg, hldb]
      · simp [Session.update, hg, hldb, cache_set, lastdb_key_ne]
    · intro hb
      exact Bool.noConfusion hb
  | some t =>
    refine ⟨force || decide (600 < env.now - t), ?_, ?_, ?_, ?_⟩
    · simp [Session.update, hg, hldb]
    · simp [hldb, Bool.or_eq_true, decide_eq_true_eq]
    · intro hb
      constructor
      · simp [Session.update, hg, hldb, hb]
      · simp [Session.update, hg, hldb, hb, cache_set, lastdb_key_ne]
    · intro hb
      constructor
      · simp [Session.update, hg, hldb, hb]
      · simp [Session.update, hg, hldb, hb, cache_set, lastdb_key_ne]

theorem c1_witness :
    ∃ b : Bool,
      (Session.update envA emptyState sessA false).2.2 = some b
      ∧ (b = true ↔
          (false = true ∨ Session.lastDbRead emptyState sessA = none
            ∨ ∃ t, Session.lastDbRead emptyState sessA = some t ∧ 600 < envA.now - t))
      ∧ (b = true →
          (Session.update envA emptyState sessA false).1.dbRows =
            emptyState.dbRows.map (fun r =>
              if some r.sid = sessA.data.sid then
                { r with
                    sessiondata :=
                      { sessA.data.data with
                          last_updated := some envA.now, lang := some envA.lang },
                    lastupdate := envA.now }
              else r)
          ∧ (Session.update envA emptyState sessA false).1.cache
              (make_key (keyLastDb ++ sessA.sid) none) = some (CacheVal.time envA.now))
      ∧ (b = false →
          (Session.update envA emptyState sessA false).1.dbRows = emptyState.dbRows
          ∧ (Session.update envA emptyState sessA false).1.cache
              (make_key (keyLastDb ++ sessA.sid) none)
              = emptyState.cache (make_key (keyLastDb ++ sessA.sid) none)) :=
  c1_update_throttle envA emptyState sessA false (by decide)

/-- Claim C6: for a non-guest, non-logout request, update refreshes the
payload's last-updated timestamp to the current time and rewrites the
session's cache entry with the refreshed record, for every force value —
in particular also on runs where the durable write is throttled. -/
theorem c6_update_always_caches (env : Env) (st : FrappeState) (s : SessionObj) (force : Bool)
    (hg : ¬(s.data.user = some guestStr ∨ env.form_cmd = some logoutStr)) :
    ((Session.update env st s force).2.1).data.data.last_updated = some env.now
    ∧ (Session.update env st s force).1.cache (make_key (keySession ++ s.sid) (some s.user))
        = some (CacheVal.sess ((Session.update env st s force).2.1).data) := by
  constructor
  · simp [Session.update, hg]
  · simp [Session.update, hg, cache_set]

theorem c6_witness :
    ((Session.update envA emptyState sessA false).2.1).data.data.last_updated = some envA.now
    ∧ (Session.update envA emptyState sessA false).1.cache
        (make_key (keySession ++ sessA.sid) (some sessA.user))
        = some (CacheVal.sess ((Session.update envA emptyState sessA false).2.1).data) :=
  c6_update_always_caches envA emptyState sessA false (by decide)

/-- Claim C9: when the geo-IP lookup fails — the geo library is missing or
the address is invalid — start() behaves exactly as in a benign no-match
run: the session country is left unset, and for a non-guest user the
durable row is still inserted with status Active. -/
theorem c9_geo_failure_harmless (env : Env) (st : FrappeState) (s : SessionObj)
    (hfail : env.geo = GeoOutcome.unavailable ∨ env.geo = GeoOutcome.invalid) :
    ((Session.start env st s).2).data.data.session_country = none
    ∧ Session.start env st s = Session.start { env with geo := GeoOutcome.notFound } st s
    ∧ (s.user ≠ guestStr →
        ∃ row, (Session.start env st s).1.dbRows = row :: st.dbRows
          ∧ row.sid = env.generated_sid
          ∧ row.sessiondata.session_country = none
          ∧ row.status = activeStr) := by
  have hgeo : get_geo_ip_country env.geo = none := by
    rcases hfail with h | h <;> rw [h] <;> rfl
  refine ⟨?_, ?_, ?_⟩
  · by_cases hgu : s.user = guestStr
    · simp [Session.start, hgu, hgeo]
    · simp [Session.start, hgu, hgeo]
  · have hnf : get_geo_ip_country GeoOutcome.notFound = none := rfl
    by_cases hgu : s.user = guestStr
    · simp [Session.start, hgu, hgeo, hnf]
    · simp [Session.start, hgu, hgeo, hnf]
  · intro hne
    refine ⟨{ sid := env.generated_sid, user := s.user,
              sessiondata := { s.data.data with
                  user := some s.user, session_ip := env.request_ip,
                  last_updated := some env.now,
                  session_expiry := some (get_expiry_period env.session_expiry_default),
                  full_name := s.full_name, session_country := none },
              lastupdate := env.now, status := activeStr }, ?_, rfl, rfl, rfl⟩
    simp [Session.start, hne, hgeo]

theorem c9_witness :
    ((Session.start envC emptyState sessA).2).data.data.session_country = none
    ∧ Session.start envC emptyState sessA =
        Session.start { envC with geo := GeoOutcome.notFound } emptyState sessA
    ∧ (sessA.user ≠ guestStr →
        ∃ row,
          (Session.start envC emptyState sessA).1.dbRows = row :: emptyState.dbRows
          ∧ row.sid = envC.generated_sid
          ∧ row.sessiondata.session_country = none
          ∧ row.status = activeStr) :=
  c9_geo_failure_harmless envC emptyState sessA (Or.inl rfl)

/-- Claim C4: when resolution finds the cached session expired, or finds
neither a cache entry nor a live durable row, get_session_record deletes
the session, resolves to the guest identity (user "Guest") without an
error, sets the session-expired response flag and clears the cookies. -/
theorem c4_expired_resolves_to_guest (env : Env) (st : FrappeState) (s : SessionObj)
    (hsid : s.sid ≠ guestStr)
    (h : (∃ stored lu expiry,
            st.cache (make_key (keySession ++ s.sid) (some s.user)) = some (CacheVal.sess stored)
            ∧ stored.data.last_updated = some lu
            ∧ get_expiry_in_seconds stored.data.session_expiry = some expiry
            ∧ expiry < env.now - lu)
        ∨ (st.cache (make_key (keySession ++ s.sid) (some s.user)) = none
            ∧ Session.liveDbRows env st s = [])) :
    ∃ st' s' r,
      Session.get_session_record env st s = Except.ok (st', s', some r)
      ∧ r.user = some guestStr
      ∧ st'.response_session_expired = true
      ∧ st'.cookies_cleared = true
      ∧ s'.sid = guestStr
      ∧ st'.cache (make_key (keySession ++ s.sid) (some s.user)) = none
      ∧ ∀ rr ∈ st'.dbRows, rr.sid ≠ s.sid := by
  rcases h with ⟨stored, lu, expiry, hhit, hlu, hexp, hlt⟩ | ⟨hmiss, hempty⟩
  · have hc : Session.get_session_data_from_cache env st s =
        Except.ok (delete_session st s.sid s.user,
          { s with time_diff := some (env.now - lu) }, none) := by
      simp [Session.get_session_data_from_cache, hhit, hlu, hexp, hlt]
    have hl : Session.liveDbRows env (delete_session st s.sid s.user)
        { s with time_diff := some (env.now - lu) } = [] :=
      liveDbRows_delete env st { s with time_diff := some (env.now - lu) } s.user
    have hdb : Session.get_session_data_from_db env (delete_session st s.sid s.user)
        { s with time_diff := some (env.now - lu) } =
        (delete_session (delete_session st s.sid s.user) s.sid s.user,
          { s with time_diff := some (env.now - lu) }, none) := by
      simp [Session.get_session_data_from_db, hl]
    have hd : Session.get_session_data env st s =
        Except.ok (delete_session (delete_session st s.sid s.user) s.sid s.user,
          { s with time_diff := some (env.now - lu) }, none) := by
      simp [Session.get_session_data, hsid, hc, hdb]
    have hrec : Session.get_session_record env st s =
        Except.ok ({ delete_session (delete_session st s.sid s.user) s.sid s.user with
            response_session_expired := true, cookies_cleared := true },
          { { s with time_diff := some (env.now - lu) } with sid := guestStr },
          some guestRecord) := by
      simp only [Session.get_session_record, hd]
      simp [Session.get_session_data]
    refine ⟨_, _, guestRecord, hrec, rfl, rfl, rfl, rfl, ?_, ?_⟩
    · exact delete_session_cache_sess (delete_session st s.sid s.user) s.sid s.user
    · intro rr hrr
      exact delete_session_rows (delete_session st s.sid s.user) s.sid s.user rr hrr
  · have hc : Session.get_session_data_from_cache env st s = Except.ok (st, s, none) := by
      simp [Session.get_session_data_from_cache, hmiss]
    have hdb : Session.get_session_data_from_db env st s =
        (delete_session st s.sid s.user, s, none) := by
      simp [Session.get_session_data_from_db, hempty]
    have hd : Session.get_session_data env st s =
        Except.ok (delete_session st s.sid s.user, s, none) := by
      simp [Session.get_session_data, hsid, hc, hdb]
    have hrec : Session.get_session_record env st s =
        Except.ok ({ delete_session st s.sid s.user with
            response_session_expired := true, cookies_cleared := true },
          { s with sid := guestStr }, some guestRecord) := by
      simp only [Session.get_session_record, hd]
      simp [Session.get_session_data]
    refine ⟨_, _, guestRecord, hrec, rfl, rfl, rfl, rfl, ?_, ?_⟩
    · exact delete_session_cache_sess st s.sid s.user
    · intro rr hrr
      exact delete_session_rows st s.sid s.user rr hrr

theorem c4_witness :
    ∃ st' s' r,
      Session.get_session_record envB stB sessB = Except.ok (st', s', some r)
      ∧ r.user = some guestStr
      ∧ st'.response_session_expired = true
      ∧ st'.cookies_cleared = true
      ∧ s'.sid = guestStr
      ∧ st'.cache (make_key (keySession ++ sessB.sid) (some sessB.user)) = none
      ∧ ∀ rr ∈ st'.dbRows, rr.sid ≠ sessB.sid :=
  c4_expired_resolves_to_guest envB stB sessB (by decide)
    (Or.inl ⟨storedB, 0, 21600, by decide, by decide, by decide, by decide⟩)

/-- Claim C8 counterexample: clearing user "a" deletes a cache entry that
belongs to the distinct user "ab", because the bulk deletion matches every
key extending the string "user:a" — so entries of a user whose id extends
the cleared id do not remain unchanged. -/
theorem c8_counterexample :
    (['a', 'b'] : List Char) ≠ ['a']
    ∧ stC.cache keyBootAb = some (CacheVal.other [])
    ∧ (clear_cache stC (some ['a'])).cache keyBootAb = none := by
  refine ⟨by decide, rfl, by decide⟩

/-- Claim C8 as amended: clearUser(u) deletes exactly the cache keys
extending "user:"+u or "user_doc:"+u together with u's stored defaults;
the namespace of u itself is fully cleared, and the cache entries and
defaults of another user v remain unchanged provided neither user id is a
string prefix of the other (ids extending u are also swept, as the
counterexample shows). -/
theorem c8_amended_clear_user (st : FrappeState) (u v k d g : List Char)
    (h1 : ¬ u <+: v) (h2 : ¬ v <+: u) :
    (clear_cache st (some u)).cache (make_key k (some v)) = st.cache (make_key k (some v))
    ∧ (clear_cache st (some u)).defaults v = st.defaults v
    ∧ (clear_cache st (some u)).cache (make_key d (some u)) = none
    ∧ (clear_cache st (some u)).defaults u = none
    ∧ (hasPref (keyUser ++ u) g = false → hasPref (keyUserDoc ++ u) g = false →
        (clear_cache st (some u)).cache g = st.cache g) := by
  have hvu : v ≠ u := by
    intro e
    subst e
    exact h1 (List.prefix_refl v)
  have e1 : make_key k (some v) = keyUser ++ (v ++ ([colon] ++ k)) := by
    simp [make_key, List.append_assoc]
  have hp1 : hasPref (keyUser ++ u) (make_key k (some v)) = false := by
    rw [e1, hasPref_append_same]
    cases hB : hasPref u (v ++ ([colon] ++ k)) with
    | false => rfl
    | true =>
      have hpre := (hasPref_true_iff _ _).mp hB
      have hvpre : v <+: v ++ ([colon] ++ k) := List.prefix_append v _
      have hcomp := List.prefix_or_prefix_of_prefix hpre hvpre
      rcases hcomp with hx | hx
      · exact absurd hx h1
      · exact absurd hx h2
  have hp2 : hasPref (keyUserDoc ++ u) (make_key k (some v)) = false := by
    rw [e1]
    exact hasPref_keyUserDoc u (v ++ ([colon] ++ k))
  refine ⟨?_, ?_, ?_, ?_, ?_⟩
  · simp [clear_cache, delete_keys, hp1, hp2]
  · simp [clear_cache, hvu]
  · have e2 : make_key d (some u) = keyUser ++ (u ++ ([colon] ++ d)) := by
      simp [make_key, List.append_assoc]
    have hpu : hasPref (keyUser ++ u) (make_key d (some u)) = true := by
      rw [e2, hasPref_append_same]
      exact hasPref_self_append u _
    simp [clear_cache, delete_keys, hpu]
  · simp [clear_cache]
  · intro hg1 hg2
    simp [clear_cache, delete_keys, hg1, hg2]

theorem c8_amended_witness :
    (clear_cache stC (some ['a'])).cache (make_key ['z'] (some ['b']))
        = stC.cache (make_key ['z'] (some ['b']))
    ∧ (clear_cache stC (some ['a'])).defaults ['b'] = stC.defaults ['b']
    ∧ (clear_cache stC (some ['a'])).cache (make_key ['z'] (some ['a'])) = none
    ∧ (clear_cache stC (some ['a'])).defaults ['a'] = none
    ∧ (hasPref (keyUser ++ ['a']) ['q'] = false →
        hasPref (keyUserDoc ++ ['a']) ['q'] = false →
        (clear_cache stC (some ['a'])).cache ['q'] = stC.cache ['q']) :=
  c8_amended_clear_user stC ['a'] ['b'] ['z'] ['z'] ['q'] (by decide) (by decide)
